import Mathlib

/-!
# Verification of the ACG accessibility audit pipeline

A shallow embedding of the core pipeline of the ACG audit toolkit
(`src/index.ts` and `src/crawler/sitemap-crawler.ts`):
sitemap discovery with fallback, URL filtering, page-scan orchestration,
violation aggregation, and lead grading.  External collaborators
(the headless browser plus axe-core rule engine, and the sitemap fetch
library) are modelled as oracle functions passed in as parameters; the
pipeline logic itself is translated directly from the TypeScript source.
-/

set_option autoImplicit false

namespace ACG

/-- The four axe-core impact levels (`Violation.impact` in `index.ts`). -/
inductive Severity where
  | critical
  | serious
  | moderate
  | minor
deriving DecidableEq, Repr

/-- The `bySeverity` record of `AuditSummary` in `index.ts`:
a count per severity level. -/
structure SeverityTally where
  critical : Nat
  serious : Nat
  moderate : Nat
  minor : Nat
deriving DecidableEq, Repr

/-- Projection of the tally bucket for a given severity. -/
def SeverityTally.get (t : SeverityTally) : Severity → Nat
  | .critical => t.critical
  | .serious => t.serious
  | .moderate => t.moderate
  | .minor => t.minor

/-- The `Violation` interface of `index.ts` (lines 44-53): one rule failure
on one page, with `nodeCount` DOM nodes affected. -/
structure Violation where
  id : String
  impact : Severity
  description : String
  help : String
  helpUrl : String
  wcagTags : String
  nodeCount : Nat
  pageUrl : String
deriving DecidableEq, Repr

/-- One entry of `AuditSummary.topIssues` in `index.ts`. -/
structure TopIssue where
  rule : String
  count : Nat
  impact : Severity
deriving DecidableEq, Repr

/-- The `AuditSummary` interface of `index.ts` (lines 55-69).
`scanDate` is kept as an opaque string (produced by the system clock). -/
structure AuditSummary where
  domain : String
  scanDate : String
  pagesScanned : Nat
  pagesWithErrors : Nat
  totalViolations : Nat
  bySeverity : SeverityTally
  topIssues : List TopIssue
  allViolations : List Violation
deriving DecidableEq, Repr

/-- The lead grade printed by `printSummary` / `exportSummaryText`. -/
inductive Grade where
  | A
  | B
  | C
  | skip
deriving DecidableEq, Repr

/-- Numeric level of a grade, for the ordering Skip < C < B < A. -/
def Grade.level : Grade → Nat
  | .skip => 0
  | .C => 1
  | .B => 2
  | .A => 3

/-- The lead-qualification branch selected by `printSummary`
(`index.ts` lines 248-260), translated condition by condition. -/
def printSummaryGrade (summary : AuditSummary) : Grade :=
  let totalIssues := summary.totalViolations
  let criticalSerious := summary.bySeverity.critical + summary.bySeverity.serious
  if criticalSerious ≥ 10 ∨ totalIssues ≥ 25 then .A
  else if criticalSerious ≥ 5 ∨ totalIssues ≥ 15 then .B
  else if totalIssues > 0 then .C
  else .skip

/-- The lead-qualification line chosen by `exportSummaryText`
(`index.ts` lines 318-327), a second, independent copy of the rule. -/
def exportSummaryGrade (summary : AuditSummary) : Grade :=
  let criticalSerious := summary.bySeverity.critical + summary.bySeverity.serious
  if criticalSerious ≥ 10 ∨ summary.totalViolations ≥ 25 then .A
  else if criticalSerious ≥ 5 ∨ summary.totalViolations ≥ 15 then .B
  else if summary.totalViolations > 0 then .C
  else .skip

/-- Stated from the specification text of the Lead Grading Engine, for
comparison with the code: Grade A if (critical + serious) ≥ 10 or total
≥ 25; else B if (critical + serious) ≥ 5 or total ≥ 15; else C if total
≥ 1; else Skip. -/
def leadGradeSpec (criticalSerious total : Nat) : Grade :=
  if criticalSerious ≥ 10 ∨ total ≥ 25 then .A
  else if criticalSerious ≥ 5 ∨ total ≥ 15 then .B
  else if total ≥ 1 then .C
  else .skip

/-- One step of the `bySeverity` tallying loop of `runFullAudit`
(`index.ts` line 188: `bySeverity[v.impact]++`). -/
def addSeverity (t : SeverityTally) : Severity → SeverityTally
  | .critical => { t with critical := t.critical + 1 }
  | .serious => { t with serious := t.serious + 1 }
  | .moderate => { t with moderate := t.moderate + 1 }
  | .minor => { t with minor := t.minor + 1 }

/-- The `bySeverity` tally computed by `runFullAudit` (lines 184-193)
over the collected violation list, starting from all-zero buckets. -/
def computeBySeverity (allViolations : List Violation) : SeverityTally :=
  allViolations.foldl (fun t v => addSeverity t v.impact) ⟨0, 0, 0, 0⟩

/-- The value type of the `issueCount` record in `runFullAudit`. -/
structure IssueData where
  count : Nat
  impact : Severity
deriving DecidableEq, Repr

/-- One step of the `issueCount` loop (`index.ts` lines 189-192): a new
rule id is appended with count 1 and the record's impact; an existing
entry keeps its stored impact and has its count incremented.  The JS
object is modelled as an insertion-ordered association list, matching
string-keyed property order. -/
def addIssue (acc : List (String × IssueData)) (v : Violation) : List (String × IssueData) :=
  match acc with
  | [] => [(v.id, ⟨1, v.impact⟩)]
  | (k, d) :: rest =>
    if k = v.id then (k, ⟨d.count + 1, d.impact⟩) :: rest
    else (k, d) :: addIssue rest v

/-- The full `issueCount` record built by `runFullAudit` (lines 185-193). -/
def computeIssueCount (allViolations : List Violation) : List (String × IssueData) :=
  allViolations.foldl addIssue []

/-- Count stored for a rule id in an `issueCount` association list
(0 when the id is absent), i.e. property lookup on the JS object. -/
def countIn (acc : List (String × IssueData)) (k : String) : Nat :=
  match acc with
  | [] => 0
  | (k2, d) :: rest => if k2 = k then d.count else countIn rest k

/-- The keys of an `issueCount` association list, in insertion order. -/
def issueKeys (acc : List (String × IssueData)) : List String :=
  acc.map Prod.fst

/-- Sum of the stored counts of an `issueCount` association list. -/
def sumCounts (acc : List (String × IssueData)) : Nat :=
  (acc.map (fun p => p.2.count)).sum

/-- The `topIssues` ranking of `runFullAudit` (lines 195-198): the
`issueCount` entries, sorted descending by count (the JS comparator
`(a, b) => b.count - a.count`, a stable sort) and cut to the top ten. -/
def computeTopIssues (allViolations : List Violation) : List TopIssue :=
  (((computeIssueCount allViolations).map
      (fun p => TopIssue.mk p.1 p.2.count p.2.impact)).mergeSort
    (fun a b => decide (b.count ≤ a.count))).take 10

/-- Stated from the specification text of the Violation Aggregator, for
comparison with the code: the sum of the occurrence (affected DOM node)
counts of all records with the given severity. -/
def severityOccurrenceSum (vs : List Violation) (s : Severity) : Nat :=
  ((vs.filter (fun v => v.impact == s)).map Violation.nodeCount).sum

/-- Stated from the specification text of the Violation Aggregator, for
comparison with the code: the sum of the occurrence (affected DOM node)
counts of all records sharing the given rule identifier. -/
def ruleOccurrenceSum (vs : List Violation) (k : String) : Nat :=
  ((vs.filter (fun v => v.id == k)).map Violation.nodeCount).sum

/-- A sample violation record whose rule fails on two DOM nodes. -/
def vEx : Violation :=
  { id := "image-alt"
    impact := .critical
    description := "Images must have alternate text"
    help := "Images must have alternate text"
    helpUrl := "https://dequeuniversity.com/rules/axe/4.7/image-alt"
    wcagTags := "wcag2a, wcag111"
    nodeCount := 2
    pageUrl := "https://www.example.gov/" }

/-- A raw violation entry as returned by the axe-core rule engine
(the shape consumed at `index.ts` lines 94-103).  `impact` is optional
in axe-core's interface; `nodes` lists the affected DOM targets. -/
structure AxeRawViolation where
  id : String
  impact : Option Severity
  description : String
  help : String
  helpUrl : String
  tags : List String
  nodes : List String
deriving DecidableEq, Repr

/-- The result of one axe-core analysis.  In the source, `passes` and
`incomplete` are arrays of which only the lengths are used, so they are
modelled by their lengths. -/
structure AxeResults where
  violations : List AxeRawViolation
  passes : Nat
  incomplete : Nat
deriving DecidableEq, Repr

/-- A raw rule-engine violation entry whose impact field is absent,
affecting two DOM nodes. -/
def rawEx : AxeRawViolation :=
  { id := "image-alt"
    impact := none
    description := "Images must have alternate text"
    help := "Images must have alternate text"
    helpUrl := "https://dequeuniversity.com/rules/axe/4.7/image-alt"
    tags := ["cat.text-alternatives", "wcag2a", "wcag111"]
    nodes := ["img.logo", "img.banner"] }

/-- The `PageResult` interface of `index.ts` (lines 35-42).  `scanTime`
is wall-clock time and is not modelled; `error` is the optional failure
message. -/
structure PageResult where
  url : String
  violations : List Violation
  passes : Nat
  incomplete : Nat
  error : Option String
deriving DecidableEq, Repr

/-- The per-violation mapping of `scanPage` (`index.ts` lines 94-103):
a missing impact defaults to minor, wcag-prefixed tags are joined with
a comma, and the node count is the length of the affected-node list. -/
def processViolation (url : String) (v : AxeRawViolation) : Violation :=
  { id := v.id
    impact := v.impact.getD .minor
    description := v.description
    help := v.help
    helpUrl := v.helpUrl
    wcagTags := String.intercalate ", " (v.tags.filter (fun t => t.startsWith "wcag"))
    nodeCount := v.nodes.length
    pageUrl := url }

/-- `scanPage` (`index.ts` lines 75-123).  Navigation plus rule-engine
evaluation is the external oracle: it either yields axe results or
throws, and the catch branch records the error message with an empty
violation list and zeroed counters. -/
def scanPage (oracle : String → Except String AxeResults) (url : String) : PageResult :=
  match oracle url with
  | .ok results =>
    { url := url
      violations := results.violations.map (processViolation url)
      passes := results.passes
      incomplete := results.incomplete
      error := none }
  | .error msg =>
    { url := url
      violations := []
      passes := 0
      incomplete := 0
      error := some msg }

/-- JS truthiness of the optional `error` string: `undefined` and the
empty string are falsy (`if (result.error)`, `r => r.error`). -/
def errTruthy (e : Option String) : Bool :=
  match e with
  | none => false
  | some s => !(s == "")

/-- The scan loop of `runFullAudit` (`index.ts` lines 155-177) produces
one `PageResult` per crawled URL, in order.  The timing side effects
(progress output, the one-second pacing delay) do not affect the data. -/
def auditPages (oracle : String → Except String AxeResults) (urls : List String) :
    List PageResult :=
  urls.map (scanPage oracle)

/-- The `allViolations` accumulation of the scan loop (lines 164-171):
results with a truthy error are skipped, results with a non-empty
violation list are appended, clean results contribute nothing. -/
def collectViolations (allResults : List PageResult) : List Violation :=
  allResults.foldl
    (fun acc r =>
      if errTruthy r.error then acc
      else if r.violations.length > 0 then acc ++ r.violations
      else acc) []

/-- The summary literal of `runFullAudit` (`index.ts` lines 202-211).
`hostname` is `new URL(baseUrl).hostname` (external URL parsing) and
`scanDate` is the clock reading, both passed in as data. -/
def compileSummary (hostname scanDate : String) (crawledUrls : List String)
    (allResults : List PageResult) (allViolations : List Violation) : AuditSummary :=
  { domain := hostname
    scanDate := scanDate
    pagesScanned := crawledUrls.length
    pagesWithErrors := (allResults.filter (fun r => errTruthy r.error)).length
    totalViolations := allViolations.length
    bySeverity := computeBySeverity allViolations
    topIssues := computeTopIssues allViolations
    allViolations := allViolations }

/-- Provenance tag of a crawl result (`sitemap-crawler.ts` line 22). -/
inductive CrawlSource where
  | sitemap
  | fallback
deriving DecidableEq, Repr

/-- The `CrawlResult` interface of `sitemap-crawler.ts` (lines 20-25). -/
structure CrawlResult where
  urls : List String
  source : CrawlSource
  totalFound : Nat
  filtered : Nat
deriving DecidableEq, Repr

/-- The four probed sitemap locations (`sitemap-crawler.ts` lines 52-57),
built from the site's scheme+host. -/
def sitemapLocations (origin : String) : List String :=
  [origin ++ "/sitemap.xml",
   origin ++ "/sitemap_index.xml",
   origin ++ "/sitemap/sitemap.xml",
   origin ++ "/wp-sitemap.xml"]

/-- The probe loop of `getUrlsFromSitemap` (lines 61-76): the first
location whose fetch succeeds with a non-empty site list wins; a fetch
error or an empty list silently advances to the next location. -/
def probeLoop (fetch : String → Except Unit (List String)) :
    List String → List String
  | [] => []
  | loc :: rest =>
    match fetch loc with
    | .ok sites => if sites.length > 0 then sites else probeLoop fetch rest
    | .error _ => probeLoop fetch rest

/-- The HTML filter of `getUrlsFromSitemap` (lines 90-100): drop URLs
whose lowercased form ends in a deny-listed resource extension. -/
def keepUrl (u : String) : Bool :=
  let lower := u.toLower
  if lower.endsWith ".pdf" then false
  else if lower.endsWith ".jpg" || lower.endsWith ".jpeg" then false
  else if lower.endsWith ".png" || lower.endsWith ".gif" then false
  else if lower.endsWith ".doc" || lower.endsWith ".docx" then false
  else if lower.endsWith ".xls" || lower.endsWith ".xlsx" then false
  else if lower.endsWith ".zip" || lower.endsWith ".rar" then false
  else true

/-- The filter plus page-cap truncation of `getUrlsFromSitemap`
(lines 90-103): keep HTML-like URLs in order, then take the first
`maxPages` of them. -/
def filterAndLimit (allUrls : List String) (maxPages : Nat) : List String :=
  let htmlUrls := allUrls.filter keepUrl
  htmlUrls.take maxPages

/-- `getUrlsFromSitemap` (`sitemap-crawler.ts` lines 34-113).  The
sitemap library fetch is the external oracle; `origin` is the cleaned
scheme+host of `baseUrl` (external URL parsing).  An empty probe result
falls back to the bare root URL, tagged `fallback`. -/
def getUrlsFromSitemap (fetch : String → Except Unit (List String))
    (baseUrl origin : String) (maxPages : Nat) : CrawlResult :=
  let allUrls := probeLoop fetch (sitemapLocations origin)
  if allUrls.length = 0 then
    { urls := [baseUrl], source := .fallback, totalFound := 1, filtered := 1 }
  else
    let limitedUrls := filterAndLimit allUrls maxPages
    { urls := limitedUrls
      source := .sitemap
      totalFound := allUrls.length
      filtered := limitedUrls.length }

/-- `runFullAudit` (`index.ts` lines 125-212), with the two external
oracles (sitemap fetch, navigation plus rule engine) and the externally
parsed strings passed in as parameters. -/
def runFullAudit (fetch : String → Except Unit (List String))
    (oracle : String → Except String AxeResults)
    (baseUrl origin hostname scanDate : String) (maxPages : Nat) : AuditSummary :=
  let crawlResult := getUrlsFromSitemap fetch baseUrl origin maxPages
  let allResults := auditPages oracle crawlResult.urls
  let allViolations := collectViolations allResults
  compileSummary hostname scanDate crawlResult.urls allResults allViolations

/-- An oracle on which every page scan throws a navigation timeout. -/
def failOracle : String → Except String AxeResults :=
  fun _ => .error "Navigation timeout of 30000 ms exceeded"

/-- A fetch oracle on which every sitemap probe errors out. -/
def failFetch : String → Except Unit (List String) :=
  fun _ => .error ()

/-- A sample summary with severity tally (2, 12, 1, 0) and total 15,
the scenario given in the specification. -/
def scenarioSummary : AuditSummary :=
  { domain := "www.example.gov"
    scanDate := "2026-01-01T00:00:00.000Z"
    pagesScanned := 10
    pagesWithErrors := 0
    totalViolations := 15
    bySeverity := ⟨2, 12, 1, 0⟩
    topIssues := []
    allViolations := [] }

/-- C1: the grade computed by `printSummary` agrees with the spec's
threshold cascade (first match wins: A, then B, then C, then Skip) on
every summary, and the scenario tally (critical 2, serious 12,
moderate 1, minor 0, total 15) receives Grade A. -/
theorem printSummary_grade_matches_spec_cascade :
    (∀ summary : AuditSummary,
      printSummaryGrade summary =
        leadGradeSpec (summary.bySeverity.critical + summary.bySeverity.serious)
          summary.totalViolations) ∧
    printSummaryGrade scenarioSummary = .A := by
  refine ⟨fun summary => ?_, by decide⟩
  simp only [printSummaryGrade, leadGradeSpec]
  split_ifs <;> first | rfl | omega

/-- C9: `printSummary` and `exportSummaryText` each re-derive the lead
grade with their own copy of the threshold rule; the two copies select
the same grade on every summary. -/
theorem printSummary_exportSummary_same_grade :
    ∀ summary : AuditSummary, printSummaryGrade summary = exportSummaryGrade summary := by
  intro summary
  rfl

/-- C8: grading is monotone in the critical+serious count: between two
sealed profiles whose tallies agree on moderate and minor and whose
totals are the tally sums, the one with the larger critical+serious
count gets at least as high a grade (Skip < C < B < A). -/
theorem grade_monotone_in_critical_serious
    (s1 s2 : AuditSummary)
    (hm : s1.bySeverity.moderate = s2.bySeverity.moderate)
    (hmi : s1.bySeverity.minor = s2.bySeverity.minor)
    (ht1 : s1.totalViolations =
      s1.bySeverity.critical + s1.bySeverity.serious +
        s1.bySeverity.moderate + s1.bySeverity.minor)
    (ht2 : s2.totalViolations =
      s2.bySeverity.critical + s2.bySeverity.serious +
        s2.bySeverity.moderate + s2.bySeverity.minor)
    (hcs : s1.bySeverity.critical + s1.bySeverity.serious ≤
      s2.bySeverity.critical + s2.bySeverity.serious) :
    (printSummaryGrade s1).level ≤ (printSummaryGrade s2).level := by
  simp only [printSummaryGrade]
  split_ifs <;> simp only [Grade.level] <;> omega

/-- Concrete instance of the monotonicity theorem: raising serious from
3 to 12 (tally ⟨0,3,1,1⟩ → ⟨0,12,1,1⟩) does not lower the grade. -/
theorem grade_monotone_witness :
    (printSummaryGrade { scenarioSummary with
        totalViolations := 5, bySeverity := ⟨0, 3, 1, 1⟩ }).level ≤
      (printSummaryGrade { scenarioSummary with
        totalViolations := 14, bySeverity := ⟨0, 12, 1, 1⟩ }).level :=
  grade_monotone_in_critical_serious
    { scenarioSummary with totalViolations := 5, bySeverity := ⟨0, 3, 1, 1⟩ }
    { scenarioSummary with totalViolations := 14, bySeverity := ⟨0, 12, 1, 1⟩ }
    (by decide) (by decide) (by decide) (by decide) (by decide)

theorem SeverityTally.get_zero (s : Severity) : (⟨0, 0, 0, 0⟩ : SeverityTally).get s = 0 := by
  cases s <;> rfl

theorem SeverityTally.get_addSeverity (t : SeverityTally) (s s2 : Severity) :
    (addSeverity t s).get s2 = t.get s2 + if s == s2 then 1 else 0 := by
  cases s <;> cases s2 <;> simp [addSeverity, SeverityTally.get]

theorem computeBySeverity_loop (vs : List Violation) (t : SeverityTally) (s : Severity) :
    (vs.foldl (fun t v => addSeverity t v.impact) t).get s =
      t.get s + vs.countP (fun v => v.impact == s) := by
  induction vs generalizing t with
  | nil => simp
  | cons v vs ih =>
    rw [List.foldl_cons, ih, SeverityTally.get_addSeverity, List.countP_cons]
    omega

theorem computeBySeverity_get (vs : List Violation) (s : Severity) :
    (computeBySeverity vs).get s = vs.countP (fun v => v.impact == s) := by
  have h := computeBySeverity_loop vs ⟨0, 0, 0, 0⟩ s
  rwa [SeverityTally.get_zero, Nat.zero_add] at h

theorem countIn_addIssue (acc : List (String × IssueData)) (v : Violation) (k : String) :
    countIn (addIssue acc v) k = countIn acc k + (if v.id = k then 1 else 0) := by
  induction acc with
  | nil => simp [addIssue, countIn]
  | cons p rest ih =>
    obtain ⟨k2, d⟩ := p
    simp only [addIssue]
    by_cases h : k2 = v.id
    · by_cases hk : k2 = k
      all_goals simp_all [countIn]
    · by_cases hk : k2 = k
      · have hv : v.id ≠ k := fun hq => h (hk.trans hq.symm)
        simp_all [countIn]
      · simp_all [countIn]

theorem countIn_foldl (vs : List Violation) (acc : List (String × IssueData)) (k : String) :
    countIn (vs.foldl addIssue acc) k = countIn acc k + vs.countP (fun v => v.id == k) := by
  induction vs generalizing acc with
  | nil => simp
  | cons v vs ih =>
    rw [List.foldl_cons, ih, countIn_addIssue, List.countP_cons]
    by_cases hv : v.id = k
    all_goals simp [hv]
    all_goals omega

theorem countIn_computeIssueCount (vs : List Violation) (k : String) :
    countIn (computeIssueCount vs) k = vs.countP (fun v => v.id == k) := by
  have h := countIn_foldl vs [] k
  simpa [computeIssueCount, countIn] using h

theorem issueKeys_addIssue (acc : List (String × IssueData)) (v : Violation) :
    issueKeys (addIssue acc v) =
      if v.id ∈ issueKeys acc then issueKeys acc else issueKeys acc ++ [v.id] := by
  induction acc with
  | nil => simp [addIssue, issueKeys]
  | cons p rest ih =>
    obtain ⟨k2, d⟩ := p
    simp only [addIssue]
    by_cases h : k2 = v.id
    · simp [h, issueKeys]
    · by_cases hm : v.id ∈ issueKeys rest <;>
        simp_all [issueKeys, Ne.symm h]

theorem nodupKeys_addIssue (acc : List (String × IssueData)) (v : Violation)
    (h : (issueKeys acc).Nodup) : (issueKeys (addIssue acc v)).Nodup := by
  rw [issueKeys_addIssue]
  split_ifs with hmem
  · exact h
  · simp [List.nodup_append, h, hmem]

theorem nodupKeys_foldl (vs : List Violation) (acc : List (String × IssueData))
    (h : (issueKeys acc).Nodup) : (issueKeys (vs.foldl addIssue acc)).Nodup := by
  induction vs generalizing acc with
  | nil => exact h
  | cons v vs ih => exact ih _ (nodupKeys_addIssue acc v h)

theorem nodupKeys_computeIssueCount (vs : List Violation) :
    (issueKeys (computeIssueCount vs)).Nodup :=
  nodupKeys_foldl vs [] (by simp [issueKeys])

theorem countIn_of_mem (acc : List (String × IssueData)) (e : String × IssueData)
    (hnd : (issueKeys acc).Nodup) (he : e ∈ acc) : countIn acc e.1 = e.2.count := by
  induction acc with
  | nil => cases he
  | cons p rest ih =>
    obtain ⟨k2, d⟩ := p
    simp only [issueKeys, List.map_cons, List.nodup_cons] at hnd
    rcases List.mem_cons.mp he with h | h
    · subst h
      simp [countIn]
    · have hk2 : k2 ≠ e.1 := by
        intro hq
        exact hnd.1 (hq ▸ List.mem_map_of_mem Prod.fst h)
      simpa [countIn, hk2] using ih hnd.2 h

theorem topIssues_count (vs : List Violation) (e : TopIssue) (he : e ∈ computeTopIssues vs) :
    e.count = vs.countP (fun v => v.id == e.rule) := by
  have h1 : e ∈ (computeIssueCount vs).map (fun p => TopIssue.mk p.1 p.2.count p.2.impact) :=
    List.mem_mergeSort.mp ((List.take_sublist 10 _).subset he)
  obtain ⟨p, hp, hpe⟩ := List.mem_map.mp h1
  have h2 := countIn_of_mem (computeIssueCount vs) p (nodupKeys_computeIssueCount vs) hp
  rw [countIn_computeIssueCount] at h2
  subst hpe
  simpa using h2.symm

theorem tallySum_foldl (vs : List Violation) (t : SeverityTally) :
    (vs.foldl (fun t v => addSeverity t v.impact) t).critical +
      (vs.foldl (fun t v => addSeverity t v.impact) t).serious +
      (vs.foldl (fun t v => addSeverity t v.impact) t).moderate +
      (vs.foldl (fun t v => addSeverity t v.impact) t).minor =
      (t.critical + t.serious + t.moderate + t.minor) + vs.length := by
  induction vs generalizing t with
  | nil => simp
  | cons v vs ih =>
    rw [List.foldl_cons, ih]
    cases v.impact <;> simp [addSeverity] <;> omega

theorem bucket_sum_eq_length (vs : List Violation) :
    (computeBySeverity vs).critical + (computeBySeverity vs).serious +
      (computeBySeverity vs).moderate + (computeBySeverity vs).minor = vs.length := by
  have h := tallySum_foldl vs ⟨0, 0, 0, 0⟩
  simpa [computeBySeverity] using h

theorem sumCounts_addIssue (acc : List (String × IssueData)) (v : Violation) :
    sumCounts (addIssue acc v) = sumCounts acc + 1 := by
  induction acc with
  | nil => simp [addIssue, sumCounts]
  | cons p rest ih =>
    obtain ⟨k2, d⟩ := p
    simp only [addIssue]
    by_cases h : k2 = v.id
    · simp [h, sumCounts]
      omega
    · simp [h, sumCounts] at ih ⊢
      omega

theorem sumCounts_foldl (vs : List Violation) (acc : List (String × IssueData)) :
    sumCounts (vs.foldl addIssue acc) = sumCounts acc + vs.length := by
  induction vs generalizing acc with
  | nil => simp
  | cons v vs ih =>
    rw [List.foldl_cons, ih, sumCounts_addIssue, List.length_cons]
    omega

theorem sumCounts_computeIssueCount (vs : List Violation) :
    sumCounts (computeIssueCount vs) = vs.length := by
  have h := sumCounts_foldl vs []
  simpa [computeIssueCount, sumCounts] using h

/-- C2 counterexample: on a single record affecting two DOM nodes, the
code's severity bucket and rule count are 1, not the occurrence-count
sum 2 claimed by the specification. -/
theorem aggregation_not_occurrence_sums :
    ¬((computeBySeverity [vEx]).get .critical = severityOccurrenceSum [vEx] .critical ∧
      countIn (computeIssueCount [vEx]) "image-alt" = ruleOccurrenceSum [vEx] "image-alt") := by
  decide

/-- C2 (amended): each severity bucket equals the NUMBER of violation
records with that severity (a record with occurrence count > 1 still
contributes exactly 1), the count grouped per rule identifier equals the
number of records with that identifier, and every entry of the
top-issues ranking carries that per-identifier record count. -/
theorem aggregation_counts_records (vs : List Violation) :
    (∀ s : Severity, (computeBySeverity vs).get s = vs.countP (fun v => v.impact == s)) ∧
    (∀ k : String, countIn (computeIssueCount vs) k = vs.countP (fun v => v.id == k)) ∧
    (∀ e ∈ computeTopIssues vs, e.count = vs.countP (fun v => v.id == e.rule)) :=
  ⟨computeBySeverity_get vs, countIn_computeIssueCount vs,
    fun e he => topIssues_count vs e he⟩

/-- Witness for the amended C2 at the singleton list `[vEx]`: the one
ranking entry carries count 1, the number of records with its rule id. -/
theorem aggregation_counts_records_witness :
    (⟨"image-alt", 1, Severity.critical⟩ : TopIssue).count =
      List.countP (fun v => v.id == "image-alt") [vEx] :=
  (aggregation_counts_records [vEx]).2.2 ⟨"image-alt", 1, .critical⟩ (by
    simp only [computeTopIssues, computeIssueCount, List.foldl_cons, List.foldl_nil, addIssue,
      List.map_cons, List.map_nil, List.mergeSort_singleton, List.take_succ_cons, List.take_nil,
      List.mem_singleton]
    rfl)

/-- C4: in every sealed audit summary, the total violation count used
for grading equals the sum of the four severity buckets, and that sum
equals the sum of the per-rule counts of the untruncated grouping. -/
theorem profile_total_invariant (hostname scanDate : String) (crawledUrls : List String)
    (allResults : List PageResult) (vs : List Violation) :
    (compileSummary hostname scanDate crawledUrls allResults vs).totalViolations =
      (compileSummary hostname scanDate crawledUrls allResults vs).bySeverity.critical +
        (compileSummary hostname scanDate crawledUrls allResults vs).bySeverity.serious +
        (compileSummary hostname scanDate crawledUrls allResults vs).bySeverity.moderate +
        (compileSummary hostname scanDate crawledUrls allResults vs).bySeverity.minor ∧
    (compileSummary hostname scanDate crawledUrls allResults vs).bySeverity.critical +
        (compileSummary hostname scanDate crawledUrls allResults vs).bySeverity.serious +
        (compileSummary hostname scanDate crawledUrls allResults vs).bySeverity.moderate +
        (compileSummary hostname scanDate crawledUrls allResults vs).bySeverity.minor =
      sumCounts (computeIssueCount
        (compileSummary hostname scanDate crawledUrls allResults vs).allViolations) := by
  constructor
  · exact (bucket_sum_eq_length vs).symm
  · show (computeBySeverity vs).critical + (computeBySeverity vs).serious +
        (computeBySeverity vs).moderate + (computeBySeverity vs).minor =
      sumCounts (computeIssueCount vs)
    rw [bucket_sum_eq_length, sumCounts_computeIssueCount]

theorem length_filter_not_add {α : Type} (l : List α) (p : α → Bool) :
    (l.filter (fun r => !(p r))).length + (l.filter p).length = l.length := by
  induction l with
  | nil => rfl
  | cons r l ih => by_cases h : p r <;> simp [h] <;> omega

/-- C6: the orchestrator produces exactly one page result per input URL,
and a URL on which navigation or evaluation throws yields a failure
result carrying the error's message and an empty violation list. -/
theorem one_outcome_per_url
    (oracle : String → Except String AxeResults) (urls : List String) :
    (auditPages oracle urls).length = urls.length ∧
    (∀ url msg, oracle url = .error msg →
      scanPage oracle url =
        { url := url, violations := [], passes := 0, incomplete := 0, error := some msg }) := by
  refine ⟨by simp [auditPages], fun url msg h => ?_⟩
  simp [scanPage, h]

/-- Witness for C6: a timed-out navigation yields the failure result. -/
theorem one_outcome_per_url_witness :
    scanPage failOracle "https://www.example.gov/" =
      { url := "https://www.example.gov/", violations := [], passes := 0, incomplete := 0,
        error := some "Navigation timeout of 30000 ms exceeded" } :=
  (one_outcome_per_url failOracle ["https://www.example.gov/"]).2 "https://www.example.gov/"
    "Navigation timeout of 30000 ms exceeded" rfl

/-- C3 counterexample: with one input URL whose scan fails, the
summary's pagesScanned field is 1 (every attempted page), while the
number of non-failure outcomes is 0. -/
theorem pagesScanned_not_success_count :
    ¬((compileSummary "www.example.gov" "2026-01-01T00:00:00.000Z" ["https://www.example.gov/"]
        (auditPages failOracle ["https://www.example.gov/"])
        (collectViolations (auditPages failOracle ["https://www.example.gov/"]))).pagesScanned =
      ((auditPages failOracle ["https://www.example.gov/"]).filter
        (fun r => r.error.isNone)).length) := by
  decide

/-- C3 (amended): pagesScanned equals the number of filtered input URLs
(attempted pages, successes and failures alike); when failure messages
are non-empty (the code tests the error string for JS truthiness),
pagesWithErrors equals the number of failure outcomes, and non-failure
outcomes plus pagesWithErrors sum to pagesScanned. -/
theorem page_counts (oracle : String → Except String AxeResults)
    (urls : List String) (hostname scanDate : String)
    (hmsg : ∀ url msg, oracle url = .error msg → msg ≠ "") :
    (compileSummary hostname scanDate urls (auditPages oracle urls)
        (collectViolations (auditPages oracle urls))).pagesScanned = urls.length ∧
    (compileSummary hostname scanDate urls (auditPages oracle urls)
        (collectViolations (auditPages oracle urls))).pagesWithErrors =
      ((auditPages oracle urls).filter (fun r => r.error.isSome)).length ∧
    ((auditPages oracle urls).filter (fun r => r.error.isNone)).length +
        (compileSummary hostname scanDate urls (auditPages oracle urls)
          (collectViolations (auditPages oracle urls))).pagesWithErrors =
      (compileSummary hostname scanDate urls (auditPages oracle urls)
        (collectViolations (auditPages oracle urls))).pagesScanned := by
  have hpt : ∀ r ∈ auditPages oracle urls, errTruthy r.error = r.error.isSome := by
    intro r hr
    obtain ⟨url, hu, rfl⟩ := List.mem_map.mp hr
    cases ho : oracle url with
    | ok res => simp [scanPage, ho, errTruthy]
    | error msg =>
      have hne := hmsg url msg ho
      simp [scanPage, ho, errTruthy, hne]
  have hnt : ∀ r ∈ auditPages oracle urls, r.error.isNone = !(errTruthy r.error) := by
    intro r hr
    rw [hpt r hr]
    cases r.error <;> rfl
  refine ⟨rfl, ?_, ?_⟩
  · show ((auditPages oracle urls).filter (fun r => errTruthy r.error)).length = _
    rw [List.filter_congr hpt]
  · show ((auditPages oracle urls).filter (fun r => r.error.isNone)).length +
        ((auditPages oracle urls).filter (fun r => errTruthy r.error)).length = urls.length
    rw [List.filter_congr hnt, length_filter_not_add]
    simp [auditPages]

/-- Witness for the amended C3 at one failing URL: pagesScanned is 1,
pagesWithErrors is 1, and 0 non-failure outcomes plus 1 failure is 1. -/
theorem page_counts_witness :
    (compileSummary "www.example.gov" "2026-01-01T00:00:00.000Z" ["https://www.example.gov/"]
        (auditPages failOracle ["https://www.example.gov/"])
        (collectViolations (auditPages failOracle ["https://www.example.gov/"]))).pagesScanned =
      ["https://www.example.gov/"].length ∧
    (compileSummary "www.example.gov" "2026-01-01T00:00:00.000Z" ["https://www.example.gov/"]
        (auditPages failOracle ["https://www.example.gov/"])
        (collectViolations (auditPages failOracle ["https://www.example.gov/"]))).pagesWithErrors =
      ((auditPages failOracle ["https://www.example.gov/"]).filter
        (fun r => r.error.isSome)).length ∧
    ((auditPages failOracle ["https://www.example.gov/"]).filter
        (fun r => r.error.isNone)).length +
        (compileSummary "www.example.gov" "2026-01-01T00:00:00.000Z" ["https://www.example.gov/"]
          (auditPages failOracle ["https://www.example.gov/"])
          (collectViolations (auditPages failOracle ["https://www.example.gov/"]))).pagesWithErrors =
      (compileSummary "www.example.gov" "2026-01-01T00:00:00.000Z" ["https://www.example.gov/"]
        (auditPages failOracle ["https://www.example.gov/"])
        (collectViolations (auditPages failOracle ["https://www.example.gov/"]))).pagesScanned :=
  page_counts failOracle ["https://www.example.gov/"] "www.example.gov"
    "2026-01-01T00:00:00.000Z"
    (fun url msg h => by
      simp only [failOracle, Except.error.injEq] at h
      subst h
      decide)

theorem probeLoop_all_fail (fetch : String → Except Unit (List String)) (locs : List String)
    (h : ∀ loc ∈ locs, fetch loc = .error () ∨ fetch loc = .ok []) :
    probeLoop fetch locs = [] := by
  induction locs with
  | nil => rfl
  | cons loc rest ih =>
    rcases h loc (List.mem_cons_self loc rest) with hf | hf <;>
      simp [probeLoop, hf, ih fun l hl => h l (List.mem_cons_of_mem loc hl)]

/-- C5: when every probed sitemap location errors out or returns an
empty URL list, the resolver returns exactly the singleton root URL
tagged fallback; no probe failure escapes, and the fallback is total. -/
theorem sitemap_fallback (fetch : String → Except Unit (List String))
    (baseUrl origin : String) (maxPages : Nat)
    (h : ∀ loc ∈ sitemapLocations origin, fetch loc = .error () ∨ fetch loc = .ok []) :
    getUrlsFromSitemap fetch baseUrl origin maxPages =
      { urls := [baseUrl], source := .fallback, totalFound := 1, filtered := 1 } := by
  simp [getUrlsFromSitemap, probeLoop_all_fail fetch _ h]

/-- Witness for C5: with every fetch erroring, the crawl of the root
URL falls back to scanning the homepage only. -/
theorem sitemap_fallback_witness :
    getUrlsFromSitemap failFetch "https://www.example.gov" "https://www.example.gov" 10 =
      { urls := ["https://www.example.gov"], source := .fallback,
        totalFound := 1, filtered := 1 } :=
  sitemap_fallback failFetch "https://www.example.gov" "https://www.example.gov" 10
    (fun _ _ => Or.inl rfl)

/-- C7: for a positive page cap, the URL filter output is a subsequence
of the input (original order, no reordering), contains only URLs passing
the extension deny-list, has length at most the cap, and is exactly the
first cap-many survivors of the filter. -/
theorem filter_and_limit_shape (input : List String) (maxPages : Nat)
    (_hN : 0 < maxPages) :
    (filterAndLimit input maxPages).Sublist input ∧
    (∀ u ∈ filterAndLimit input maxPages, keepUrl u = true) ∧
    (filterAndLimit input maxPages).length ≤ maxPages ∧
    filterAndLimit input maxPages = (input.filter keepUrl).take maxPages := by
  refine ⟨?_, ?_, ?_, rfl⟩
  · exact (List.take_sublist _ _).trans (List.filter_sublist _)
  · intro u hu
    exact List.of_mem_filter ((List.take_sublist _ _).subset hu)
  · rw [filterAndLimit, List.length_take]
    exact Nat.min_le_left _ _

/-- Witness for C7 on a two-URL list with cap 1: the PDF is dropped and
the output is the first surviving URL. -/
theorem filter_and_limit_shape_witness :
    (filterAndLimit ["https://www.example.gov/a", "https://www.example.gov/doc.pdf"] 1).Sublist
        ["https://www.example.gov/a", "https://www.example.gov/doc.pdf"] ∧
    (∀ u ∈ filterAndLimit ["https://www.example.gov/a", "https://www.example.gov/doc.pdf"] 1,
      keepUrl u = true) ∧
    (filterAndLimit ["https://www.example.gov/a", "https://www.example.gov/doc.pdf"] 1).length
        ≤ 1 ∧
    filterAndLimit ["https://www.example.gov/a", "https://www.example.gov/doc.pdf"] 1 =
      (["https://www.example.gov/a", "https://www.example.gov/doc.pdf"].filter keepUrl).take 1 :=
  filter_and_limit_shape ["https://www.example.gov/a", "https://www.example.gov/doc.pdf"] 1
    (by decide)

/-- C10: a rule-engine violation entry with a missing impact is recorded
with severity minor, and every violation record stored in a page result
has one of the four closed severity levels. -/
theorem missing_impact_defaults_minor (oracle : String → Except String AxeResults) :
    (∀ url v, v.impact = none → (processViolation url v).impact = .minor) ∧
    (∀ url, ∀ w ∈ (scanPage oracle url).violations,
      w.impact = .critical ∨ w.impact = .serious ∨ w.impact = .moderate ∨
        w.impact = .minor) := by
  constructor
  · intro url v h
    simp [processViolation, h]
  · intro url w _
    cases h : w.impact <;> simp

/-- Witness for C10: the impact-less raw entry is stored as minor. -/
theorem missing_impact_defaults_minor_witness :
    (processViolation "https://www.example.gov/" rawEx).impact = .minor :=
  (missing_impact_defaults_minor failOracle).1 "https://www.example.gov/" rawEx rfl

end ACG
